import Mathlib

/-!
Shallow embedding of the windsurf_prompt interception core
(src/prompt_parser.py, src/local_sniffer.py, src/proxy_interceptor.py).

Conventions of the embedding:
* TCP payload bytes are modelled as `List Char`, one `Char` per byte; every
  concrete input considered here is pure ASCII, on which Python's
  `bytes.decode("utf-8", errors="replace")` is the identity, so the decode
  step of `_try_extract_request` is the identity in the model.
* Python `dict` values coming from `json.loads` are modelled by the `Json`
  inductive; objects are key-unique association lists built left to right
  with later duplicate keys overwriting earlier ones, exactly as `json.loads`
  builds a `dict`.
* Python runtime errors (`TypeError`, `AttributeError`, `KeyError`) that the
  source catches with `except Exception` are modelled with `Except Unit`.
* `uuid.uuid4()` and `datetime.now()` are nondeterministic inputs of the
  source; they are modelled as an explicit `GenEnv` argument drawn fresh at
  each call site.
* JSON numbers are kept as their raw lexeme (`Json.num`); no claim below
  depends on numeric normalisation.
-/

/-- JSON values as produced by `json.loads`. -/
inductive Json where
  | null : Json
  | bool : Bool → Json
  | num : String → Json
  | str : String → Json
  | arr : List Json → Json
  | obj : List (String × Json) → Json

/-- The opening-brace character, written numerically so that JSON text in
string literals can stay brace-free. -/
def lbrace : Char := Char.ofNat 123

/-- The closing-brace character. -/
def rbrace : Char := Char.ofNat 125

/-- The double-quote character. -/
def dquote : Char := Char.ofNat 34

/-- The backslash character. -/
def bslash : Char := Char.ofNat 92

/-- The NUL byte. -/
def nulChar : Char := Char.ofNat 0

/-- ASCII lowercase of one character, as Python `str.lower` acts on ASCII. -/
def lowerC (c : Char) : Char :=
  if 65 ≤ c.toNat ∧ c.toNat ≤ 90 then Char.ofNat (c.toNat + 32) else c

/-- ASCII lowercase of a string. -/
def asciiLower (s : String) : String := String.mk (s.data.map lowerC)

/-- Index of the first occurrence of `needle` in `hay` (Python `str.find`,
with absence reported as `none` instead of `-1`). -/
def findSub : List Char → List Char → Option Nat
  | hay, needle =>
    if needle.isPrefixOf hay then some 0
    else match hay with
      | [] => none
      | _ :: t => (findSub t needle).map (· + 1)

/-- Substring test on character lists (Python `in` on `str`/`bytes`). -/
def containsSubL (hay needle : List Char) : Bool := (findSub hay needle).isSome

/-- Substring test on strings. -/
def strContains (hay needle : String) : Bool := containsSubL hay.data needle.data

/-- JSON whitespace accepted by `json.loads` between tokens. -/
def isJsonWs (c : Char) : Bool := c = ' ' || c = '\t' || c = '\n' || c = '\r'

/-- Python `str.strip` whitespace. -/
def isPyWs (c : Char) : Bool :=
  c = ' ' || c = '\t' || c = '\n' || c = '\r' || c = Char.ofNat 11 || c = Char.ofNat 12

/-- Drop JSON whitespace from the front of the input. -/
def skipWs (cs : List Char) : List Char := cs.dropWhile (fun c => isJsonWs c)

/-- Overwrite-or-append insertion used to build JSON objects the way a Python
`dict` is built: the first occurrence of a key fixes its position, later
occurrences overwrite the value. -/
def jset : List (String × Json) → String → Json → List (String × Json)
  | [], k, v => [(k, v)]
  | (k', v') :: rest, k, v =>
    if k' = k then (k', v) :: rest else (k', v') :: jset rest k v

/-- Key lookup in a JSON object. -/
def jlookup (m : List (String × Json)) (k : String) : Option Json :=
  (m.find? (fun kv => kv.1 = k)).map (·.2)

/-- Key lookup with a default (`dict.get`). -/
def jlookupD (m : List (String × Json)) (k : String) (d : Json) : Json :=
  (jlookup m k).getD d

/-- Key presence in a JSON object. -/
def hasKey (m : List (String × Json)) (k : String) : Bool := (jlookup m k).isSome

/-- Decode one `\uXXXX` escape digit. -/
def hexVal (c : Char) : Option Nat :=
  if '0' ≤ c ∧ c ≤ '9' then some (c.toNat - 48)
  else if 'a' ≤ c ∧ c ≤ 'f' then some (c.toNat - 87)
  else if 'A' ≤ c ∧ c ≤ 'F' then some (c.toNat - 55)
  else none

/-- Decode a string-literal escape character (the char after a backslash). -/
def unescape : Char → List Char → Option (Char × List Char)
  | c, rest =>
    if c = dquote then some (dquote, rest)
    else if c = bslash then some (bslash, rest)
    else if c = '/' then some ('/', rest)
    else if c = 'b' then some (Char.ofNat 8, rest)
    else if c = 'f' then some (Char.ofNat 12, rest)
    else if c = 'n' then some ('\n', rest)
    else if c = 'r' then some ('\r', rest)
    else if c = 't' then some ('\t', rest)
    else if c = 'u' then
      match rest with
      | a :: b :: c2 :: d :: rest' =>
        match hexVal a, hexVal b, hexVal c2, hexVal d with
        | some x, some y, some z, some w =>
          some (Char.ofNat (((x * 16 + y) * 16 + z) * 16 + w), rest')
        | _, _, _, _ => none
      | _ => none
    else none

/-- Parse the body of a JSON string literal (after the opening quote),
with `json.loads`'s strict rejection of raw control characters. -/
def pjStr (fuel : Nat) (cs : List Char) : Option (String × List Char) :=
  match fuel with
  | 0 => none
  | fuel + 1 =>
    match cs with
    | [] => none
    | c :: rest =>
      if c = dquote then some ("", rest)
      else if c = bslash then
        match rest with
        | [] => none
        | e :: rest' =>
          match unescape e rest' with
          | some (ch, rest'') =>
            (pjStr fuel rest'').map (fun p => (String.mk (ch :: p.1.data), p.2))
          | none => none
      else if c.toNat < 32 then none
      else (pjStr fuel rest).map (fun p => (String.mk (c :: p.1.data), p.2))

/-- Parse the digit run of a JSON number component. -/
def pjDigits (cs : List Char) : List Char × List Char :=
  (cs.takeWhile (fun c => c.isDigit), cs.dropWhile (fun c => c.isDigit))

/-- Parse a JSON number starting at `cs`, returning its raw lexeme.
Enforces `json.loads`'s grammar: optional minus, integer part without
leading zeros, optional fraction, optional exponent. -/
def pjNum (cs : List Char) : Option (String × List Char) :=
  let (sign, cs1) := match cs with
    | c :: rest => if c = '-' then ([c], rest) else ([], cs)
    | [] => ([], cs)
  let (intPart, cs2) := pjDigits cs1
  if intPart = [] then none
  else if intPart.length > 1 ∧ intPart.head? = some '0' then none
  else
    let (fracPart, cs3) :=
      match cs2 with
      | c :: rest =>
        if c = '.' then
          let (ds, rest') := pjDigits rest
          if ds = [] then ([], cs2) else ([c] ++ ds, rest')
        else ([], cs2)
      | [] => ([], cs2)
    if fracPart = [] ∧ cs2.head? = some '.' then none
    else
      let (expPart, cs4) :=
        match cs3 with
        | c :: rest =>
          if c = 'e' ∨ c = 'E' then
            let (sgn, rest1) := match rest with
              | s :: r2 => if s = '+' ∨ s = '-' then ([s], r2) else ([], rest)
              | [] => ([], rest)
            let (ds, rest') := pjDigits rest1
            if ds = [] then ([], cs3) else ([c] ++ sgn ++ ds, rest')
          else ([], cs3)
        | [] => ([], cs3)
      if expPart = [] ∧ (cs3.head? = some 'e' ∨ cs3.head? = some 'E') then none
      else some (String.mk (sign ++ intPart ++ fracPart ++ expPart), cs4)

mutual

/-- Recursive-descent JSON value parser (fuel-bounded so that it reduces in
the kernel). Mirrors `json.loads`'s grammar. -/
def pjVal (fuel : Nat) (cs : List Char) : Option (Json × List Char) :=
  match fuel with
  | 0 => none
  | fuel + 1 =>
    let cs := skipWs cs
    match cs with
    | [] => none
    | c :: rest =>
      if c = lbrace then
        let rest' := skipWs rest
        match rest' with
        | d :: rest'' =>
          if d = rbrace then some (Json.obj [], rest'')
          else pjMembers fuel rest' []
        | [] => none
      else if c = '[' then
        let rest' := skipWs rest
        match rest' with
        | d :: rest'' =>
          if d = ']' then some (Json.arr [], rest'')
          else pjElems fuel rest' []
        | [] => none
      else if c = dquote then
        (pjStr fuel rest).map (fun p => (Json.str p.1, p.2))
      else if c = 't' then
        if "rue".data.isPrefixOf rest then some (Json.bool true, rest.drop 3) else none
      else if c = 'f' then
        if "alse".data.isPrefixOf rest then some (Json.bool false, rest.drop 4) else none
      else if c = 'n' then
        if "ull".data.isPrefixOf rest then some (Json.null, rest.drop 3) else none
      else if c = '-' ∨ c.isDigit then
        (pjNum cs).map (fun p => (Json.num p.1, p.2))
      else none

/-- Parse the members of a JSON object (after at least one member is known
to follow). -/
def pjMembers (fuel : Nat) (cs : List Char) (acc : List (String × Json)) :
    Option (Json × List Char) :=
  match fuel with
  | 0 => none
  | fuel + 1 =>
    match skipWs cs with
    | c :: rest =>
      if c = dquote then
        match pjStr fuel rest with
        | some (k, rest1) =>
          match skipWs rest1 with
          | c2 :: rest2 =>
            if c2 = ':' then
              match pjVal fuel rest2 with
              | some (v, rest3) =>
                let acc' := jset acc k v
                match skipWs rest3 with
                | c3 :: rest4 =>
                  if c3 = ',' then pjMembers fuel rest4 acc'
                  else if c3 = rbrace then some (Json.obj acc', rest4)
                  else none
                | [] => none
              | none => none
            else none
          | [] => none
        | none => none
      else none
    | [] => none

/-- Parse the elements of a JSON array (after at least one element is known
to follow). -/
def pjElems (fuel : Nat) (cs : List Char) (acc : List Json) :
    Option (Json × List Char) :=
  match fuel with
  | 0 => none
  | fuel + 1 =>
    match pjVal fuel cs with
    | some (v, rest) =>
      let acc' := acc ++ [v]
      match skipWs rest with
      | c :: rest1 =>
        if c = ',' then pjElems fuel rest1 acc'
        else if c = ']' then some (Json.arr acc', rest1)
        else none
      | [] => none
    | none => none

end

/-- `json.loads` on a character list: one value, optional surrounding
whitespace, nothing else. -/
def parseJsonL (cs : List Char) : Option Json :=
  match pjVal (2 * cs.length + 2) cs with
  | some (v, rest) => if skipWs rest = [] then some v else none
  | none => none

/-- `json.loads` on a string. -/
def parseJson (s : String) : Option Json := parseJsonL s.data

/-! ### Python dynamic-operation semantics -/

/-- Python `in` applied to a `json.loads` result: key membership on a dict,
element equality on a list, substring on a string, `TypeError` otherwise. -/
def pyContains : Json → String → Except Unit Bool
  | Json.obj m, k => .ok (hasKey m k)
  | Json.arr xs, k =>
    .ok (xs.any (fun j => match j with | Json.str s => s = k | _ => false))
  | Json.str s, k => .ok (containsSubL s.data k.data)
  | _, _ => .error ()

/-- Python `.get(key, default)`: works on a dict, raises otherwise. -/
def pyGetD : Json → String → Json → Except Unit Json
  | Json.obj m, k, d => .ok (jlookupD m k d)
  | _, _, _ => .error ()

/-- Python subscript `data[key]`: works on a dict holding the key,
raises otherwise. -/
def pySubscript : Json → String → Except Unit Json
  | Json.obj m, k =>
    match jlookup m k with
    | some v => .ok v
    | none => .error ()
  | _, _ => .error ()

/-- Python iteration `for x in v` as a list: lists yield elements, strings
yield one-character strings, dicts yield keys, non-iterables raise. -/
def pyIter : Json → Except Unit (List Json)
  | Json.arr xs => .ok xs
  | Json.str s => .ok (s.data.map (fun c => Json.str (String.mk [c])))
  | Json.obj m => .ok (m.map (fun kv => Json.str kv.1))
  | _ => .error ()

/-- Python `reversed(x)` as a list: sequences reverse, dicts yield reversed
keys, non-iterables raise. -/
def pyReversed : Json → Except Unit (List Json)
  | Json.arr xs => .ok xs.reverse
  | Json.str s => .ok ((s.data.map (fun c => Json.str (String.mk [c]))).reverse)
  | Json.obj m => .ok ((m.map (fun kv => Json.str kv.1)).reverse)
  | _ => .error ()

/-- Python truthiness of a JSON value (`bool(x)`, `if x:`). A number is
truthy when its mantissa has a nonzero digit. -/
def pyTruthy : Json → Bool
  | Json.null => false
  | Json.bool b => b
  | Json.num lex =>
    (lex.data.takeWhile (fun c => c ≠ 'e' ∧ c ≠ 'E')).any (fun c => c.isDigit ∧ c ≠ '0')
  | Json.str s => s ≠ ""
  | Json.arr xs => !xs.isEmpty
  | Json.obj m => !m.isEmpty

/-- Collect a list of JSON values that must all be strings
(`str.join` raises `TypeError` on a non-string element). -/
def allStrs : List Json → Except Unit (List String)
  | [] => .ok []
  | Json.str s :: rest => (allStrs rest).map (fun l => s :: l)
  | _ :: _ => .error ()

/-- Python `sep.join(parts)` over JSON values. -/
def pyJoinStrs (sep : String) (l : List Json) : Except Unit String :=
  (allStrs l).map (fun strs => String.intercalate sep strs)

/-! ### Headers -/

/-- HTTP headers as the Python `Dict[str, str]` the parser receives. -/
def Headers := List (String × String)

/-- `headers.get(key, default)`. -/
def hget (h : Headers) (k d : String) : String :=
  match List.find? (fun kv => kv.1 = k) h with
  | some kv => kv.2
  | none => d

/-- `key in headers`. -/
def hcontains (h : Headers) (k : String) : Bool :=
  (List.find? (fun kv => kv.1 = k) h).isSome

/-- Overwrite-or-append insertion (`headers[k] = v`). -/
def hset : Headers → String → String → Headers
  | [], k, v => [(k, v)]
  | (k', v') :: rest, k, v =>
    if k' = k then (k', v) :: rest else (k', v') :: hset rest k v

/-! ### Configuration (src/config.py, with the default environment) -/

/-- `Config.AI_API_PATTERNS`. -/
def ai_api_patterns : List String :=
  ["api.openai.com", "api.anthropic.com", "api.codeium.com",
   "/v1/chat/completions", "/v1/completions", "/v1/messages",
   "/chat/completions", "windsurf", "cursor", "copilot"]

/-- `Config.get_monitored_patterns()` with the default environment
(all four monitor flags true). The source deduplicates through a `set`;
only membership is ever used, so the concatenation is equivalent. -/
def monitored_patterns : List String :=
  ["api.openai.com", "/v1/chat/completions", "/v1/completions",
   "api.anthropic.com", "/v1/messages", "api.codeium.com", "codeium"]
  ++ ai_api_patterns

/-! ### Prompt parser (src/prompt_parser.py) -/

/-- `PromptParser.WINDSURF_ENDPOINTS`. -/
def windsurf_endpoints : List String :=
  ["SendUserCascadeMessage", "LanguageServerService", "exa.language_server_pb"]

/-- The AI keywords scanned for in the body by `is_ai_request`. -/
def ai_keywords : List String :=
  ["messages", "prompt", "completion", "chat", "model", "gpt", "claude",
   "temperature", "max_tokens", "stream", "assistant", "user", "system"]

/-- The IDE patterns scanned for in the User-Agent by `is_ai_request`. -/
def ide_patterns : List String :=
  ["windsurf", "cursor", "vscode", "electron", "copilot"]

/-- `PromptParser.is_ai_request` (src/prompt_parser.py lines 26-58). -/
def is_ai_request (url body : String) (headers : Headers) : Bool :=
  let url_lower := asciiLower url
  let body_lower := asciiLower body
  let user_agent := asciiLower (hget headers "user-agent" "")
  windsurf_endpoints.any (fun ep => strContains url_lower (asciiLower ep))
  || monitored_patterns.any (fun p => strContains url_lower (asciiLower p))
  || ai_keywords.any (fun k => strContains body_lower k)
  || ide_patterns.any (fun p => strContains user_agent p)

/-- `PromptParser._detect_source` (src/prompt_parser.py lines 262-278).
Only the `windsurf` tag is checked against the URL; the other four tags
are checked against the User-Agent alone. -/
def detect_source (user_agent url : String) : String :=
  let user_agent_lower := asciiLower user_agent
  let url_lower := asciiLower url
  if strContains user_agent_lower "windsurf" || strContains url_lower "windsurf" then
    "windsurf"
  else if strContains user_agent_lower "cursor" then "cursor"
  else if strContains user_agent_lower "vscode" then "vscode"
  else if strContains user_agent_lower "copilot" then "github-copilot"
  else if strContains user_agent_lower "electron" then "electron-app"
  else "unknown"

/-- The per-call nondeterministic inputs of the source: `uuid.uuid4()` and
`datetime.now()`, drawn fresh at every record construction. -/
structure GenEnv where
  uuid : String
  now : Nat

/-- All fields of an `InterceptedPrompt` that are a function of the request
alone (everything except the freshly generated `id` and `timestamp`). -/
structure PromptData where
  source : String
  user_agent : String
  url : String
  method : String
  prompt : Json
  messages : Json
  response : Option Json
  metadata : List (String × Json)

/-- The canonical record of config.py's `InterceptedPrompt` dataclass. -/
structure InterceptedPrompt extends PromptData where
  id : String
  timestamp : Nat

/-- Attach the generated `id` and `timestamp` to the request-determined
fields, as the two `InterceptedPrompt(...)` constructor calls do. -/
def attachEnv (env : GenEnv) (pd : PromptData) : InterceptedPrompt :=
  { toPromptData := pd, id := env.uuid, timestamp := env.now }

/-- The `prompt_parts` loop of `_parse_windsurf_cascade`
(src/prompt_parser.py lines 151-156): a dict item with key `text`
contributes its `text` value, a string item contributes itself, anything
else is skipped. -/
def cascadeParts : List Json → List Json
  | [] => []
  | Json.obj m :: rest =>
    match jlookup m "text" with
    | some v => v :: cascadeParts rest
    | none => cascadeParts rest
  | Json.str s :: rest => Json.str s :: cascadeParts rest
  | _ :: rest => cascadeParts rest

/-- The metadata dict built by `_parse_windsurf_cascade`
(src/prompt_parser.py lines 160-188), in source evaluation order. -/
def cascade_metadata (data : Json) (headers : Headers) :
    Except Unit (List (String × Json)) := do
  let cascade_config ← pyGetD data "cascadeConfig" (Json.obj [])
  let planner_config ← pyGetD cascade_config "plannerConfig" (Json.obj [])
  let model_uid ← pyGetD planner_config "requestedModelUid" (Json.str "")
  let conversational ← pyGetD planner_config "conversational" (Json.obj [])
  let planner_mode ← pyGetD conversational "plannerMode" (Json.str "")
  let ws_meta ← pyGetD data "metadata" (Json.obj [])
  let cascade_id ← pyGetD data "cascadeId" (Json.str "")
  let ide_name ← pyGetD ws_meta "ideName" (Json.str "windsurf")
  let ide_version ← pyGetD ws_meta "ideVersion" (Json.str "")
  let extension_version ← pyGetD ws_meta "extensionVersion" (Json.str "")
  let locale ← pyGetD ws_meta "locale" (Json.str "")
  let api_key ← pyGetD ws_meta "apiKey" Json.null
  let brain_config ← pyGetD cascade_config "brainConfig" (Json.obj [])
  let brain_enabled ← pyGetD brain_config "enabled" (Json.bool false)
  pure [("model", model_uid),
        ("cascade_id", cascade_id),
        ("planner_mode", planner_mode),
        ("ide_name", ide_name),
        ("ide_version", ide_version),
        ("extension_version", extension_version),
        ("locale", locale),
        ("api_key_present", Json.bool (pyTruthy api_key)),
        ("brain_enabled", brain_enabled),
        ("content_type", Json.str (hget headers "content-type" "")),
        ("request_size", Json.num "0")]

/-- `PromptParser._parse_windsurf_cascade` (src/prompt_parser.py
lines 132-201), minus the generated `id`/`timestamp`. -/
def parse_windsurf_cascade_core (data : Json) (url method : String)
    (headers : Headers) : Except Unit PromptData := do
  let items ← pyGetD data "items" (Json.arr [])
  let itemsL ← pyIter items
  let prompt_text ← pyJoinStrs "\n" (cascadeParts itemsL)
  let md ← cascade_metadata data headers
  pure { source := "windsurf",
         user_agent := hget headers "user-agent" "",
         url := url,
         method := method,
         prompt := Json.str prompt_text,
         messages := Json.arr [Json.obj [("role", Json.str "user"),
                                         ("content", Json.str prompt_text)]],
         response := none,
         metadata := md }

/-- The `for msg in reversed(messages)` loop of
`extract_prompt_from_request` (src/prompt_parser.py lines 83-86), given the
already reversed message list: returns the `content` of the first dict whose
`role` equals `"user"` (default `""` when `content` is absent), keeps the
initial `""` when no dict matches, and raises on a non-dict element reached
before a match (`.get` on a non-dict). -/
def find_user_prompt : List Json → Except Unit Json
  | [] => .ok (Json.str "")
  | Json.obj m :: rest =>
    if (match jlookup m "role" with
        | some (Json.str r) => r == "user"
        | _ => false) = true then
      .ok (jlookupD m "content" (Json.str ""))
    else find_user_prompt rest
  | _ :: _ => .error ()

/-- The `messages`/`prompt` extraction chain and the metadata construction
of `extract_prompt_from_request` for a non-Cascade body
(src/prompt_parser.py lines 79-123), minus the generated fields. -/
def extract_rest (data : Json) (url method body : String) (headers : Headers) :
    Except Unit PromptData := do
  let hasMessages ← pyContains data "messages"
  let pair ←
    if hasMessages then do
      let msgs ← pySubscript data "messages"
      let rev ← pyReversed msgs
      let pt ← find_user_prompt rev
      pure (msgs, pt)
    else do
      let hasPrompt ← pyContains data "prompt"
      if hasPrompt then do
        let pt ← pySubscript data "prompt"
        pure (Json.arr [Json.obj [("role", Json.str "user"), ("content", pt)]], pt)
      else do
        let hasQuery ← pyContains data "query"
        let hasText ← if hasQuery then pure true else pyContains data "text"
        if hasQuery || hasText then do
          let dft ← pyGetD data "text" (Json.str "")
          let pt ← pyGetD data "query" dft
          pure (Json.arr [Json.obj [("role", Json.str "user"), ("content", pt)]], pt)
        else
          pure (Json.arr [], Json.str "")
  let model ← pyGetD data "model" (Json.str "")
  let temperature ← pyGetD data "temperature" Json.null
  let max_tokens ← pyGetD data "max_tokens" Json.null
  let stream ← pyGetD data "stream" (Json.bool false)
  pure { source := detect_source (hget headers "user-agent" "") url,
         user_agent := hget headers "user-agent" "",
         url := url,
         method := method,
         prompt := pair.2,
         messages := pair.1,
         response := none,
         metadata := [("model", model),
                      ("temperature", temperature),
                      ("max_tokens", max_tokens),
                      ("stream", stream),
                      ("content_type", Json.str (hget headers "content-type" "")),
                      ("authorization_present", Json.bool (hcontains headers "authorization")),
                      ("request_size", Json.num (toString body.length))] }

/-- `json.loads(body) if body else {}` (src/prompt_parser.py line 69),
with a JSON decode failure as `none`. -/
def py_loads_body (body : String) : Option Json :=
  if body = "" then some (Json.obj []) else parseJson body

/-- The body-shape dispatch of `extract_prompt_from_request`
(src/prompt_parser.py lines 75-123): short-circuiting
`'cascadeId' in data and 'items' in data`, then the non-Cascade chain. -/
def extract_body (data : Json) (url method body : String) (headers : Headers) :
    Except Unit PromptData := do
  let hasCascade ← pyContains data "cascadeId"
  let cascadeCond ← if hasCascade then pyContains data "items" else pure false
  if hasCascade && cascadeCond then
    parse_windsurf_cascade_core data url method headers
  else
    extract_rest data url method body headers

/-- `PromptParser.extract_prompt_from_request` minus the generated fields
(src/prompt_parser.py lines 60-130): the `is_ai_request` gate, the JSON
parse with `JSONDecodeError → None`, and `except Exception → None`. -/
def extract_core (url method body : String) (headers : Headers) :
    Option PromptData :=
  if is_ai_request url body headers = false then none
  else
    match py_loads_body body with
    | none => none
    | some data =>
      match extract_body data url method body headers with
      | .error _ => none
      | .ok pd => some pd

/-- `PromptParser.extract_prompt_from_request`, with the generator state
made explicit. -/
def extract_prompt_from_request (env : GenEnv) (url method body : String)
    (headers : Headers) : Option InterceptedPrompt :=
  (extract_core url method body headers).map (attachEnv env)

/-! ### Loopback sniffer (src/local_sniffer.py) -/

/-- `TARGET_HOST_PATTERN`: does the payload match `[a-z]\.localhost`? -/
def hasLetterLocalhost : List Char → Bool
  | [] => false
  | c :: rest =>
    ('a' ≤ c ∧ c ≤ 'z') ∧ ".localhost".data.isPrefixOf rest
    || hasLetterLocalhost rest

/-- `has_url_target` of `_process_payload` (src/local_sniffer.py
lines 262-266). -/
def target_url_marker (payload : List Char) : Bool :=
  containsSubL payload "SendUserCascadeMessage".data
  || containsSubL payload "LanguageServerService".data
  || hasLetterLocalhost payload

/-- `has_body_target` of `_process_payload` (src/local_sniffer.py
lines 279-283). -/
def body_target_marker (payload : List Char) : Bool :=
  containsSubL payload "\"cascadeId\"".data
  || containsSubL payload "\"items\"".data
  || containsSubL payload "LanguageServerService".data

/-- The per-flow reassembly state of `LocalSniffer`: stream buffers keyed by
`(src_port, dst_port)` and the learned language-server port set. -/
structure SnifferState where
  buffers : Nat × Nat → Option (List Char)
  known_ls_ports : List Nat

/-- The sniffer's initial state. -/
def initState : SnifferState := ⟨fun _ => none, []⟩

/-- Point update of the buffer map. -/
def updBuf (f : Nat × Nat → Option (List Char)) (k : Nat × Nat)
    (v : Option (List Char)) : Nat × Nat → Option (List Char) :=
  fun k' => if k' = k then v else f k'

/-- Set-insert for the known language-server ports. -/
def insertPort (p : Nat) (l : List Nat) : List Nat :=
  if l.contains p then l else p :: l

/-- Python `str.strip` truthiness: `if body.strip():`. -/
def stripNonEmpty (cs : List Char) : Bool := cs.any (fun c => !isPyWs c)

/-- The trailing `n` elements of a list (Python `buf[-n:]`). -/
def takeLast (n : Nat) (l : List Char) : List Char := l.drop (l.length - n)

/-- The balanced-brace scanner `_extract_json_from_position`
(src/local_sniffer.py lines 529-574): depth counter with string-literal and
escape tracking; on depth returning to 0, the candidate is accepted only if
it is at least 10 characters, contains `cascadeId`, and parses as JSON. -/
def scanJson (text : List Char) (start : Nat) :
    List Char → Nat → Int → Bool → Bool → Option (List Char) × Nat
  | [], _, _, _, _ => (none, 0)
  | ch :: rest, pos, depth, in_string, escaped =>
    if in_string = false then
      if ch = dquote then scanJson text start rest (pos + 1) depth true false
      else if ch = lbrace then scanJson text start rest (pos + 1) (depth + 1) false false
      else if ch = rbrace then
        if depth - 1 = 0 then
          let candidate := (text.drop start).take (pos + 1 - start)
          if candidate.length < 10 then (none, 0)
          else if containsSubL candidate "cascadeId".data = false then (none, 0)
          else match parseJsonL candidate with
            | some _ => (some candidate, pos + 1)
            | none => (none, 0)
        else scanJson text start rest (pos + 1) (depth - 1) false false
      else scanJson text start rest (pos + 1) depth false false
    else
      if escaped then scanJson text start rest (pos + 1) depth true false
      else if ch = bslash then scanJson text start rest (pos + 1) depth true true
      else if ch = dquote then scanJson text start rest (pos + 1) depth false false
      else scanJson text start rest (pos + 1) depth true false

/-- `_extract_json_from_position(text, start)`. -/
def extract_json_from_position (text : List Char) (start : Nat) :
    Option (List Char) × Nat :=
  scanJson text start (text.drop start) start 0 false false

/-- Positions of all opening braces (strategy 1 of
`_extract_json_with_position`, ascending). -/
def bracePositions (text : List Char) : List Nat :=
  (List.range text.length).filter (fun i => text.get? i = some lbrace)

/-- Strategy 2 test at index `i`: a zero compression flag, four length bytes
that survive a latin-1 encode, and an opening brace right after
(src/local_sniffer.py lines 479-490). -/
def connectFlagAt (text : List Char) (i : Nat) : Bool :=
  text.get? i = some nulChar
  && ((text.drop (i + 1)).take 4).all (fun c => c.toNat ≤ 255)
  && text.get? (i + 5) = some lbrace

/-- Strategy 3 test at index `i`: three NUL bytes and an opening brace five
bytes later (src/local_sniffer.py lines 492-498). -/
def grpcPrefixAt (text : List Char) (i : Nat) : Bool :=
  text.get? (i + 5) = some lbrace
  && decide ((text.drop i).take 3 = [nulChar, nulChar, nulChar])

/-- Python `text.find(ch, start)`: first index `≥ start` holding `ch`. -/
def findCharFrom (text : List Char) (ch : Char) (start : Nat) : Option Nat :=
  ((List.range text.length).filter
    (fun i => start ≤ i ∧ text.get? i = some ch)).head?

/-- The backwards brace search of strategy 5 (src/local_sniffer.py
lines 512-516). -/
def backBrace (text : List Char) : Nat → Option Nat
  | 0 => if text.get? 0 = some lbrace then some 0 else none
  | j + 1 =>
    if text.get? (j + 1) = some lbrace then some (j + 1) else backBrace text j

/-- The prioritised candidate start list of `_extract_json_with_position`
(src/local_sniffer.py lines 469-516): brace positions appended in order,
then each later strategy *prepending* its finds, so the last strategy
(the `cascadeId` anchor) ends up first. -/
def start_indices (text : List Char) : List Nat :=
  let s1 := bracePositions text
  let s2 := (List.range (text.length - 6)).foldl
    (fun acc i => if connectFlagAt text i then (i + 5) :: acc else acc) s1
  let s3 := (List.range (text.length - 5)).foldl
    (fun acc i => if grpcPrefixAt text i then (i + 5) :: acc else acc) s2
  let s4 := match findSub text "Content-Length:".data with
    | some p =>
      match findCharFrom text lbrace (p + 15) with
      | some bp => bp :: s3
      | none => s3
    | none => s3
  match findSub text "\"cascadeId\"".data with
  | some cp =>
    match backBrace text cp with
    | some j => j :: s4
    | none => s4
  | none => s4

/-- Try `_extract_json_from_position` from each candidate start in priority
order, returning the first success (src/local_sniffer.py lines 521-527). -/
def firstJson (text : List Char) : List Nat → Option (List Char) × Nat
  | [] => (none, 0)
  | s :: rest =>
    match extract_json_from_position text s with
    | (some c, e) => (some c, e)
    | (none, _) => firstJson text rest

/-- `_extract_json_with_position(text)`. -/
def extract_json_with_position (text : List Char) : Option (List Char) × Nat :=
  firstJson text (start_indices text)

/-- Header-line parsing of strategy 1 (src/local_sniffer.py lines 357-362):
split on CRLF, drop the request line, keep `k: v` pairs with lowercased
keys. -/
def splitOnSub (fuel : Nat) (cs sep : List Char) : List (List Char) :=
  match fuel with
  | 0 => [cs]
  | fuel + 1 =>
    match findSub cs sep with
    | some i => cs.take i :: splitOnSub fuel (cs.drop (i + sep.length)) sep
    | none => [cs]

/-- Parse `k: v` header lines into a dict with lowercased keys. -/
def parse_header_lines (header_text : List Char) : Headers :=
  ((splitOnSub (header_text.length + 1) header_text "\r\n".data).drop 1).foldl
    (fun acc line =>
      match findSub line ": ".data with
      | some i =>
        hset acc (String.mk ((line.take i).map lowerC))
          (String.mk (line.drop (i + 2)))
      | none => acc)
    []

/-- Python `str.strip` on a character list. -/
def pyStrip (cs : List Char) : List Char :=
  ((cs.dropWhile (fun c => isPyWs c)).reverse.dropWhile (fun c => isPyWs c)).reverse

/-- The fallback URL used when no host can be recovered. -/
def default_ws_url : String :=
  "http://localhost/exa.language_server_pb.LanguageServerService/SendUserCascadeMessage"

/-- `_extract_windsurf_url` (src/local_sniffer.py lines 576-584): scan the
header text's newline-separated lines for a `Host:` header whose value
contains `.localhost`. -/
def extract_windsurf_url (header_text : List Char) : Option String :=
  (splitOnSub (header_text.length + 1) header_text ['\n']).foldl
    (fun acc line =>
      match acc with
      | some u => some u
      | none =>
        if "host:".data.isPrefixOf (line.map lowerC) then
          match findSub line [':'] with
          | some i =>
            let host := pyStrip (line.drop (i + 1))
            if containsSubL host ".localhost".data then
              some ("http://" ++ String.mk host
                ++ "/exa.language_server_pb.LanguageServerService/SendUserCascadeMessage")
            else none
          | none => none
        else none)
    none

/-- Match attempt for `http://([a-z])\.localhost:(\d+)` at position `i`. -/
def urlPat1At (text : List Char) (i : Nat) : Option (Char × String) :=
  if "http://".data.isPrefixOf (text.drop i) then
    match text.drop (i + 7) with
    | c :: rest =>
      if ('a' ≤ c ∧ c ≤ 'z') ∧ ".localhost:".data.isPrefixOf rest then
        let digits := (rest.drop 11).takeWhile (fun d => d.isDigit)
        if digits = [] then none else some (c, String.mk digits)
      else none
    | [] => none
  else none

/-- Match attempt for `([a-z])\.localhost:(\d+)` at position `i`. -/
def urlPat2At (text : List Char) (i : Nat) : Option (Char × String) :=
  match text.drop i with
  | c :: rest =>
    if ('a' ≤ c ∧ c ≤ 'z') ∧ ".localhost:".data.isPrefixOf rest then
      let digits := (rest.drop 11).takeWhile (fun d => d.isDigit)
      if digits = [] then none else some (c, String.mk digits)
    else none
  | [] => none

/-- First match of a positional pattern over the text (`re.search`). -/
def firstMatch (text : List Char) (pat : List Char → Nat → Option (Char × String)) :
    Option (Char × String) :=
  ((List.range (text.length + 1)).filterMap (fun i => pat text i)).head?

/-- `_extract_windsurf_url_from_data` (src/local_sniffer.py lines 586-602). -/
def extract_windsurf_url_from_data (text : List Char) : Option String :=
  match firstMatch text urlPat1At with
  | some (c, port) =>
    some ("http://" ++ String.mk [c] ++ ".localhost:" ++ port
      ++ "/exa.language_server_pb.LanguageServerService/SendUserCascadeMessage")
  | none =>
    match firstMatch text urlPat2At with
    | some (c, port) =>
      some ("http://" ++ String.mk [c] ++ ".localhost:" ++ port
        ++ "/exa.language_server_pb.LanguageServerService/SendUserCascadeMessage")
    | none => none

/-- The outcome of one `_try_extract_request` call: the prompts that were
emitted (displayed, logged, handed to `on_prompt`), the returned success
flag (`True` or `None`), and the returned consumed byte count. -/
structure TryResult where
  emits : List InterceptedPrompt
  success : Option Bool
  consumed : Nat

/-- The emission guard shared by both strategies:
`if prompt and prompt.prompt:` (src/local_sniffer.py lines 374, 430). -/
def emits_of (pr : Option InterceptedPrompt) : List InterceptedPrompt :=
  match pr with
  | some p => if pyTruthy p.prompt then [p] else []
  | none => []

/-- The `has_marker` disjunction of strategy 2 (src/local_sniffer.py
lines 408-413), with Python's short-circuit evaluation:
`(cascadeId ∧ items) ∨ (cascadeId ∧ metadata) ∨ (messages ∧ model) ∨
cascadeId`. -/
def strategy2_marker (data : Json) : Except Unit Bool := do
  let a ← pyContains data "cascadeId"
  let t1 ← if a then pyContains data "items" else pure false
  if a && t1 then pure true
  else do
    let t2 ← if a then pyContains data "metadata" else pure false
    if a && t2 then pure true
    else do
      let d ← pyContains data "messages"
      let t3 ← if d then pyContains data "model" else pure false
      if d && t3 then pure true else pure a

/-- The tail of strategy 2 (src/local_sniffer.py lines 426-438): emission
and `return True, json_end_offset` happen only when the parser returned a
record with truthy prompt; otherwise control falls to `return None, 0`. -/
def strategy2_finish (pr : Option InterceptedPrompt) (json_end_offset : Nat) :
    TryResult :=
  match pr with
  | some p =>
    if pyTruthy p.prompt then ⟨[p], some true, json_end_offset⟩
    else ⟨[], none, 0⟩
  | none => ⟨[], none, 0⟩

/-- Strategy 2 of `_try_extract_request` (src/local_sniffer.py
lines 390-450): framed-body extraction. Any exception inside this block is
caught at line 444 and falls through to `return None, 0`. -/
def try_extract_strategy2 (env : GenEnv) (text : List Char) : TryResult :=
  if containsSubL text [lbrace] then
    match extract_json_with_position text with
    | (some json_str, json_end_offset) =>
      match parseJsonL json_str with
      | some data =>
        match strategy2_marker data with
        | .error _ => ⟨[], none, 0⟩
        | .ok false => ⟨[], none, 0⟩
        | .ok true =>
          let url := (extract_windsurf_url_from_data text).getD default_ws_url
          strategy2_finish
            (extract_prompt_from_request env url "POST" (String.mk json_str) [])
            json_end_offset
      | none => ⟨[], none, 0⟩
    | (none, _) => ⟨[], none, 0⟩
  else ⟨[], none, 0⟩

/-- The `cascadeId`-and-`items` test of strategy 1 (src/local_sniffer.py
line 355), with Python's short-circuit evaluation. -/
def strategy1_cond (data : Json) : Except Unit Bool := do
  let a ← pyContains data "cascadeId"
  if a then pyContains data "items" else pure false

/-- Strategy 1 of `_try_extract_request` (src/local_sniffer.py
lines 344-388): HTTP/1.1 extraction. `some r` means the strategy returned
`r` (including the `None, 0` produced when a `TypeError` escapes to the
outer handler at line 454); `none` means control fell through to
strategy 2. -/
def try_extract_strategy1 (env : GenEnv) (text : List Char) : Option TryResult :=
  match findSub text "\r\n\r\n".data with
  | none => none
  | some header_end =>
    let body_start := header_end + 4
    let body := text.drop body_start
    if stripNonEmpty body then
      match extract_json_with_position body with
      | (some json_str, json_end_offset) =>
        match parseJsonL json_str with
        | some data =>
          match strategy1_cond data with
          | .error _ => some ⟨[], none, 0⟩
          | .ok false => none
          | .ok true =>
            let header_text := text.take header_end
            let headers := parse_header_lines header_text
            let url := (extract_windsurf_url header_text).getD default_ws_url
            let pr := extract_prompt_from_request env url "POST"
              (String.mk json_str) headers
            some ⟨emits_of pr, some true, body_start + json_end_offset⟩
        | none => none
      | (none, _) => none
    else none

/-- `_try_extract_request` (src/local_sniffer.py lines 334-456). -/
def try_extract_request (env : GenEnv) (raw_data : List Char) : TryResult :=
  match try_extract_strategy1 env raw_data with
  | some r => r
  | none => try_extract_strategy2 env raw_data

/-- The outcome of one `_process_payload` call. -/
structure StepResult where
  state : SnifferState
  emits : List InterceptedPrompt
  attempted : Bool

/-- The buffer map right after the append decision of `_process_payload`
(src/local_sniffer.py lines 294-301), before the overflow check. -/
def buffer_step (st : SnifferState) (payload : List Char) (src dst : Nat) :
    Nat × Nat → Option (List Char) :=
  let has_url_target := target_url_marker payload
  let ports := if has_url_target then insertPort dst st.known_ls_ports
               else st.known_ls_ports
  let has_body_target := body_target_marker payload
  let is_known_port := ports.contains dst
  let key := (src, dst)
  let should_buffer := has_url_target || has_body_target || is_known_port
  if should_buffer then
    match st.buffers key with
    | some b => updBuf st.buffers key (some (b ++ payload))
    | none => updBuf st.buffers key (some payload)
  else
    match st.buffers key with
    | some b => updBuf st.buffers key (some (b ++ payload))
    | none => st.buffers

/-- `_process_payload` (src/local_sniffer.py lines 257-332): marker check,
port learning, buffering, the 5 MiB overflow guard with 256 KiB retention
and early return, then a single extraction attempt whose consumed prefix is
dropped from the buffer. -/
def process_payload (env : GenEnv) (st : SnifferState) (payload : List Char)
    (src dst : Nat) : StepResult :=
  let ports := if target_url_marker payload then insertPort dst st.known_ls_ports
               else st.known_ls_ports
  let bufs1 := buffer_step st payload src dst
  let key := (src, dst)
  match bufs1 key with
  | none => ⟨⟨bufs1, ports⟩, [], false⟩
  | some buf =>
    if 5 * 1024 * 1024 < buf.length then
      ⟨⟨updBuf bufs1 key (some (takeLast 262144 buf)), ports⟩, [], false⟩
    else
      let r := try_extract_request env buf
      let bufs2 :=
        match r.success with
        | some _ =>
          if 0 < r.consumed then
            let remaining := buf.drop r.consumed
            if remaining = [] then updBuf bufs1 key none
            else updBuf bufs1 key (some remaining)
          else bufs1
        | none => bufs1
      ⟨⟨bufs2, ports⟩, r.emits, true⟩

/-! ### MITM proxy (src/proxy_interceptor.py) -/

/-- `ProxyRequestHandler.MITM_DOMAINS` (src/proxy_interceptor.py
lines 152-166). -/
def MITM_DOMAINS : List String :=
  ["api.openai.com", "api.anthropic.com", "api.codeium.com",
   "copilot-proxy.githubusercontent.com", "api.github.com",
   "generativelanguage.googleapis.com", "api.groq.com", "api.mistral.ai",
   "api.cohere.com", "api.together.xyz", "api.windsurf.ai",
   "server.windsurf.ai"]

/-- `ProxyRequestHandler.LOG_ONLY_DOMAINS`. -/
def LOG_ONLY_DOMAINS : List String :=
  ["unleash.codeium.com", "telemetry.codeium.com", "app.codeium.com",
   "codeium.com"]

/-- `_is_interesting_host` (src/proxy_interceptor.py lines 176-179). -/
def is_interesting_host (host : String) : Bool :=
  MITM_DOMAINS.contains (asciiLower host)

/-- `self.path.partition(":")` of `do_CONNECT`: the host part of a
`host:port` CONNECT target. -/
def hostOfConnectPath (path : String) : String :=
  match findSub path.data [':'] with
  | some i => String.mk (path.data.take i)
  | none => path

/-- The two ways `do_CONNECT` can handle a tunnel request. -/
inductive ConnectMode where
  | mitm : ConnectMode
  | tunnel : ConnectMode
deriving DecidableEq

/-- The dispatch of `do_CONNECT` (src/proxy_interceptor.py lines 135-150):
MITM when the host is interesting, blind tunnel otherwise. -/
def do_connect_mode (path : String) : ConnectMode :=
  if is_interesting_host (hostOfConnectPath path) then ConnectMode.mitm
  else ConnectMode.tunnel

/-- `_tunnel_connect` (src/proxy_interceptor.py lines 301-340) as a pure
relay: bytes from each side are forwarded to the other unchanged, and no
`InterceptedPrompt` is ever constructed (the function contains no parser
call). Result: (bytes sent to the client, bytes sent to the origin, prompts
emitted). -/
def tunnel_connect (clientBytes originBytes : List Char) :
    List Char × List Char × List InterceptedPrompt :=
  (originBytes, clientBytes, [])

/-- `ProxyRequestHandler.WINDSURF_ENDPOINTS` (src/proxy_interceptor.py
lines 552-556), verbatim: note the capital `C` in the first entry, which is
compared against a lowercased URL. -/
def proxy_windsurf_endpoints : List String :=
  ["senduserCascademessage", "languageserverservice", "exa.language_server_pb"]

/-- The AI domain list of `_is_ai_traffic`. -/
def proxy_ai_domains : List String :=
  ["api.openai.com", "api.anthropic.com", "api.codeium.com",
   "copilot-proxy.githubusercontent.com", "api.github.com",
   "generativelanguage.googleapis.com", "api.groq.com",
   "api.mistral.ai", "api.cohere.com", "api.together.xyz"]

/-- The AI path list of `_is_ai_traffic`. -/
def proxy_ai_paths : List String :=
  ["/v1/chat/completions", "/v1/completions", "/v1/messages",
   "/chat/completions", "/completions", "/generate"]

/-- The application tags of `_is_ai_traffic`. -/
def proxy_ai_apps : List String :=
  ["windsurf", "cursor", "vscode", "copilot", "electron"]

/-- `_is_ai_traffic` (src/proxy_interceptor.py lines 558-592). -/
def is_ai_traffic (url : String) (headers : Headers) : Bool :=
  let url_lower := asciiLower url
  let user_agent := asciiLower (hget headers "user-agent" "")
  proxy_windsurf_endpoints.any (fun ep => strContains url_lower ep)
  || proxy_ai_domains.any (fun d => strContains url_lower d)
  || proxy_ai_paths.any (fun p => strContains url_lower p)
  || proxy_ai_apps.any (fun a => strContains user_agent a)

/-- `_log_request` (src/proxy_interceptor.py lines 441-496) restricted to
its emission effect: the record handed to `_log_to_file`, which happens only
past the `_is_ai_traffic` gate, with a non-empty body, when the parser
returns a record with a truthy prompt. -/
def log_request (env : GenEnv) (url method body : String) (headers : Headers) :
    Option InterceptedPrompt :=
  if is_ai_traffic url headers = false then none
  else if body = "" then none
  else
    match extract_prompt_from_request env url method body headers with
    | some p => if pyTruthy p.prompt then some p else none
    | none => none

/-! ### Helper lemmas -/

/-- Reduction of `Except` bind on a success. -/
theorem exbind_ok {α β : Type} (a : α) (f : α → Except Unit β) :
    (Except.ok a >>= f) = f a := rfl

/-- Reduction of `Except` bind on an error. -/
theorem exbind_err {α β : Type} (e : Unit) (f : α → Except Unit β) :
    (Except.error e >>= f : Except Unit β) = Except.error e := rfl

/-- Reduction of `pure` in the `Except Unit` monad. -/
theorem expure {α : Type} (a : α) : (pure a : Except Unit α) = Except.ok a := rfl

/-- `dict.get` on an actual dict never raises. -/
theorem pyGetD_obj (m : List (String × Json)) (k : String) (d : Json) :
    pyGetD (Json.obj m) k d = Except.ok (jlookupD m k d) := rfl

/-- `in` on an actual dict never raises. -/
theorem pyContains_obj (m : List (String × Json)) (k : String) :
    pyContains (Json.obj m) k = Except.ok (hasKey m k) := rfl

/-- The `cascade_id` entry of the Cascade metadata dict is the body's
`cascadeId` value whenever the metadata construction succeeds. -/
theorem cascade_metadata_cid (fields : List (String × Json)) (headers : Headers)
    (md : List (String × Json))
    (h : cascade_metadata (Json.obj fields) headers = .ok md) :
    jlookup md "cascade_id" = some (jlookupD fields "cascadeId" (Json.str "")) := by
  unfold cascade_metadata at h
  simp only [pyGetD_obj, exbind_ok] at h
  cases h1 : pyGetD (jlookupD fields "cascadeConfig" (Json.obj [])) "plannerConfig" (Json.obj []) with
  | error e => rw [h1, exbind_err] at h; exact absurd h (by simp)
  | ok pc =>
  rw [h1, exbind_ok] at h
  cases h2 : pyGetD pc "requestedModelUid" (Json.str "") with
  | error e => rw [h2, exbind_err] at h; exact absurd h (by simp)
  | ok mu =>
  rw [h2, exbind_ok] at h
  cases h3 : pyGetD pc "conversational" (Json.obj []) with
  | error e => rw [h3, exbind_err] at h; exact absurd h (by simp)
  | ok conv =>
  rw [h3, exbind_ok] at h
  cases h4 : pyGetD conv "plannerMode" (Json.str "") with
  | error e => rw [h4, exbind_err] at h; exact absurd h (by simp)
  | ok pm =>
  rw [h4, exbind_ok] at h
  cases h5 : pyGetD (jlookupD fields "metadata" (Json.obj [])) "ideName" (Json.str "windsurf") with
  | error e => rw [h5, exbind_err] at h; exact absurd h (by simp)
  | ok inm =>
  rw [h5, exbind_ok] at h
  cases h6 : pyGetD (jlookupD fields "metadata" (Json.obj [])) "ideVersion" (Json.str "") with
  | error e => rw [h6, exbind_err] at h; exact absurd h (by simp)
  | ok iv =>
  rw [h6, exbind_ok] at h
  cases h7 : pyGetD (jlookupD fields "metadata" (Json.obj [])) "extensionVersion" (Json.str "") with
  | error e => rw [h7, exbind_err] at h; exact absurd h (by simp)
  | ok ev =>
  rw [h7, exbind_ok] at h
  cases h8 : pyGetD (jlookupD fields "metadata" (Json.obj [])) "locale" (Json.str "") with
  | error e => rw [h8, exbind_err] at h; exact absurd h (by simp)
  | ok loc =>
  rw [h8, exbind_ok] at h
  cases h9 : pyGetD (jlookupD fields "metadata" (Json.obj [])) "apiKey" Json.null with
  | error e => rw [h9, exbind_err] at h; exact absurd h (by simp)
  | ok ak =>
  rw [h9, exbind_ok] at h
  cases h10 : pyGetD (jlookupD fields "cascadeConfig" (Json.obj [])) "brainConfig" (Json.obj []) with
  | error e => rw [h10, exbind_err] at h; exact absurd h (by simp)
  | ok bc =>
  rw [h10, exbind_ok] at h
  cases h11 : pyGetD bc "enabled" (Json.bool false) with
  | error e => rw [h11, exbind_err] at h; exact absurd h (by simp)
  | ok be =>
  rw [h11, exbind_ok, expure] at h
  injection h with h'
  subst h'
  rfl

/-- The spec's description of the Cascade prompt parts: each item that is an
object with key `text` contributes that (string) value, each string item
contributes itself, all other items are skipped. `none` when a contributed
`text` value is not a string. -/
def spec_collect_texts : List Json → Option (List String)
  | [] => some []
  | Json.obj m :: rest =>
    match jlookup m "text" with
    | some (Json.str s) => (spec_collect_texts rest).map (fun l => s :: l)
    | some _ => none
    | none => spec_collect_texts rest
  | Json.str s :: rest => (spec_collect_texts rest).map (fun l => s :: l)
  | Json.null :: rest => spec_collect_texts rest
  | Json.bool _ :: rest => spec_collect_texts rest
  | Json.num _ :: rest => spec_collect_texts rest
  | Json.arr _ :: rest => spec_collect_texts rest

/-- The source's `prompt_parts` loop agrees with the spec's collection
whenever the latter is defined. -/
theorem allStrs_cascadeParts (items : List Json) (parts : List String)
    (h : spec_collect_texts items = some parts) :
    allStrs (cascadeParts items) = Except.ok parts := by
  induction items generalizing parts with
  | nil =>
    simp only [spec_collect_texts] at h
    injection h with h'
    subst h'
    rfl
  | cons x rest ih =>
    cases x with
    | obj m =>
      simp only [spec_collect_texts] at h
      cases hjl : jlookup m "text" with
      | none =>
        rw [hjl] at h
        simp only [cascadeParts, hjl]
        exact ih parts h
      | some v =>
        rw [hjl] at h
        cases v with
        | str s =>
          cases hrest : spec_collect_texts rest with
          | none => rw [hrest] at h; simp at h
          | some l =>
            rw [hrest] at h
            simp only [Option.map] at h
            injection h with h'
            subst h'
            simp only [cascadeParts, hjl, allStrs]
            rw [ih l hrest]
            rfl
        | null => simp at h
        | bool b => simp at h
        | num n => simp at h
        | arr a => simp at h
        | obj o => simp at h
    | str s =>
      simp only [spec_collect_texts] at h
      cases hrest : spec_collect_texts rest with
      | none => rw [hrest] at h; simp at h
      | some l =>
        rw [hrest] at h
        simp only [Option.map] at h
        injection h with h'
        subst h'
        simp only [cascadeParts, allStrs]
        rw [ih l hrest]
        rfl
    | null => simp only [spec_collect_texts] at h; simp only [cascadeParts]; exact ih parts h
    | bool b => simp only [spec_collect_texts] at h; simp only [cascadeParts]; exact ih parts h
    | num n => simp only [spec_collect_texts] at h; simp only [cascadeParts]; exact ih parts h
    | arr a => simp only [spec_collect_texts] at h; simp only [cascadeParts]; exact ih parts h

/-- Iterating a JSON array yields its elements. -/
theorem pyIter_arr (xs : List Json) : pyIter (Json.arr xs) = Except.ok xs := rfl

/-- `Except.map` on a success. -/
theorem exmap_ok {α β : Type} (f : α → β) (a : α) :
    (Except.ok a : Except Unit α).map f = Except.ok (f a) := rfl

/-! ### C1 — Cascade extraction -/

/-- C1 (amended): when `is_ai_request` holds, the body parses to a JSON
object carrying `cascadeId` and `items`, and the Cascade parser raises no
type error (its items all contribute strings per `spec_collect_texts` and
its metadata construction succeeds), `extract_prompt_from_request` returns
a record whose `source` is `"windsurf"`, whose `prompt` is the newline-join
of the item texts (possibly empty), and whose `metadata.cascade_id` is the
body's `cascadeId`. -/
theorem c1_cascade_extraction (env : GenEnv) (url method body : String)
    (headers : Headers) (fields : List (String × Json)) (items : List Json)
    (parts : List String) (md : List (String × Json))
    (h1 : is_ai_request url body headers = true)
    (h2 : py_loads_body body = some (Json.obj fields))
    (h3 : hasKey fields "cascadeId" = true)
    (h4 : hasKey fields "items" = true)
    (h5 : jlookupD fields "items" (Json.arr []) = Json.arr items)
    (h6 : spec_collect_texts items = some parts)
    (h7 : cascade_metadata (Json.obj fields) headers = Except.ok md) :
    extract_prompt_from_request env url method body headers
      = some (attachEnv env
          { source := "windsurf",
            user_agent := hget headers "user-agent" "",
            url := url,
            method := method,
            prompt := Json.str (String.intercalate "\n" parts),
            messages := Json.arr [Json.obj [("role", Json.str "user"),
              ("content", Json.str (String.intercalate "\n" parts))]],
            response := none,
            metadata := md })
    ∧ jlookup md "cascade_id" = some (jlookupD fields "cascadeId" (Json.str "")) := by
  constructor
  · unfold extract_prompt_from_request extract_core
    rw [h1]
    simp only [Bool.true_eq_false, if_false]
    rw [h2]
    unfold extract_body
    simp only [pyContains_obj, exbind_ok, h3, h4, if_true, expure, Bool.and_self]
    unfold parse_windsurf_cascade_core
    simp only [pyGetD_obj, exbind_ok, h5, pyIter_arr]
    unfold pyJoinStrs
    rw [allStrs_cascadeParts items parts h6, exmap_ok, exbind_ok, h7, exbind_ok, expure]
    rfl
  · exact cascade_metadata_cid fields headers md h7

/-- The generator state used in concrete C1 scenarios. -/
def envC1 : GenEnv := ⟨"0f6d2a30-71c4-4b62-9b5a-000000000001", 1700000001⟩

/-- A Windsurf language-server URL (passes the `is_ai_request` URL check). -/
def urlWS : String :=
  "http://d.localhost:42100/exa.language_server_pb.LanguageServerService/SendUserCascadeMessage"

/-- A valid Cascade body with one item that is an object without `text`. -/
def bodyC1bad : String := "\x7b\"cascadeId\":\"c\",\"items\":[\x7b\x7d]\x7d"

/-- C1 (counterexample): a valid Cascade body with non-empty `items` whose
single item is an object without key `text`. `extract_prompt_from_request`
returns a record with `source = "windsurf"` but with an *empty* prompt,
contradicting the claim that the prompt is non-empty for every valid
Cascade body with non-empty `items`. -/
theorem c1_cascade_empty_prompt :
    py_loads_body bodyC1bad
      = some (Json.obj [("cascadeId", Json.str "c"),
                        ("items", Json.arr [Json.obj []])])
    ∧ (extract_prompt_from_request envC1 urlWS "POST" bodyC1bad []).map
        (fun p => (p.source, p.prompt))
      = some ("windsurf", Json.str "") :=
  ⟨rfl, rfl⟩

/-- A Cascade body with a text item and a bare string item. -/
def bodyC1good : String :=
  "\x7b\"cascadeId\":\"abc\",\"items\":[\x7b\"text\":\"Refactor foo\"\x7d,\"bar\"]\x7d"

/-- The parsed fields of `bodyC1good`. -/
def fieldsC1 : List (String × Json) :=
  [("cascadeId", Json.str "abc"),
   ("items", Json.arr [Json.obj [("text", Json.str "Refactor foo")], Json.str "bar"])]

/-- The Cascade metadata dict computed for `bodyC1good` with empty headers. -/
def mdC1 : List (String × Json) :=
  [("model", Json.str ""), ("cascade_id", Json.str "abc"),
   ("planner_mode", Json.str ""), ("ide_name", Json.str "windsurf"),
   ("ide_version", Json.str ""), ("extension_version", Json.str ""),
   ("locale", Json.str ""), ("api_key_present", Json.bool false),
   ("brain_enabled", Json.bool false), ("content_type", Json.str ""),
   ("request_size", Json.num "0")]

/-- C1 (witness): the amended theorem applied to a concrete Cascade body. -/
theorem c1_cascade_witness :
    extract_prompt_from_request envC1 urlWS "POST" bodyC1good []
      = some (attachEnv envC1
          { source := "windsurf", user_agent := "", url := urlWS,
            method := "POST", prompt := Json.str "Refactor foo\nbar",
            messages := Json.arr [Json.obj [("role", Json.str "user"),
              ("content", Json.str "Refactor foo\nbar")]],
            response := none, metadata := mdC1 })
    ∧ jlookup mdC1 "cascade_id" = some (Json.str "abc") :=
  c1_cascade_extraction envC1 urlWS "POST" bodyC1good [] fieldsC1
    [Json.obj [("text", Json.str "Refactor foo")], Json.str "bar"]
    ["Refactor foo", "bar"] mdC1 rfl rfl rfl rfl rfl rfl rfl

/-! ### C2 — determinism of the prompt parser -/

/-- C2 (amended): `extract_prompt_from_request` is a pure function of
`(url, method, body, headers)` up to the freshly generated `id` and
`timestamp`: two calls with identical arguments agree on success and on
every request-determined field. -/
theorem c2_parser_deterministic :
    ∀ (e1 e2 : GenEnv) (url method body : String) (headers : Headers),
      (extract_prompt_from_request e1 url method body headers).map
          InterceptedPrompt.toPromptData
        = (extract_prompt_from_request e2 url method body headers).map
            InterceptedPrompt.toPromptData
      ∧ (extract_prompt_from_request e1 url method body headers).isSome
        = (extract_prompt_from_request e2 url method body headers).isSome := by
  intro e1 e2 url method body headers
  unfold extract_prompt_from_request
  cases extract_core url method body headers <;> simp [attachEnv]

/-- First generator draw of the C2 scenario. -/
def envC2a : GenEnv := ⟨"0f6d2a30-71c4-4b62-9b5a-0000000000a2", 1700000002⟩

/-- Second generator draw of the C2 scenario. -/
def envC2b : GenEnv := ⟨"0f6d2a30-71c4-4b62-9b5a-0000000000b2", 1700000003⟩

/-- A direct-prompt body. -/
def bodyC2 : String := "\x7b\"prompt\":\"build me a lexer\"\x7d"

/-- C2 (counterexample): two calls of `extract_prompt_from_request` with
identical `(url, method, body, headers)` do *not* return identical records,
because each call draws a fresh `uuid.uuid4()` and `datetime.now()`; the
returned `id` fields differ. -/
theorem c2_fresh_id_breaks_identity :
    (extract_prompt_from_request envC2a "" "POST" bodyC2 []).map (fun p => p.id)
      = some "0f6d2a30-71c4-4b62-9b5a-0000000000a2"
    ∧ (extract_prompt_from_request envC2b "" "POST" bodyC2 []).map (fun p => p.id)
      = some "0f6d2a30-71c4-4b62-9b5a-0000000000b2"
    ∧ extract_prompt_from_request envC2a "" "POST" bodyC2 []
      ≠ extract_prompt_from_request envC2b "" "POST" bodyC2 [] := by
  refine ⟨rfl, rfl, fun h => ?_⟩
  have h2 := congrArg (Option.map (fun p : InterceptedPrompt => p.id)) h
  have ha : (extract_prompt_from_request envC2a "" "POST" bodyC2 []).map
      (fun p : InterceptedPrompt => p.id)
      = some "0f6d2a30-71c4-4b62-9b5a-0000000000a2" := rfl
  have hb : (extract_prompt_from_request envC2b "" "POST" bodyC2 []).map
      (fun p : InterceptedPrompt => p.id)
      = some "0f6d2a30-71c4-4b62-9b5a-0000000000b2" := rfl
  rw [ha, hb] at h2
  exact absurd h2 (by decide)

/-! ### C7 — CONNECT dispatch -/

/-- C7: a CONNECT request is MITM-intercepted exactly when the lowercased
host is one of the twelve allow-listed hostnames; every other host gets a
blind byte tunnel, which emits no prompt. -/
theorem c7_connect_dispatch :
    ∀ path : String,
      (do_connect_mode path = ConnectMode.mitm ↔
        asciiLower (hostOfConnectPath path) ∈
          (["api.openai.com", "api.anthropic.com", "api.codeium.com",
            "copilot-proxy.githubusercontent.com", "api.github.com",
            "generativelanguage.googleapis.com", "api.groq.com",
            "api.mistral.ai", "api.cohere.com", "api.together.xyz",
            "api.windsurf.ai", "server.windsurf.ai"] : List String))
      ∧ (do_connect_mode path = ConnectMode.tunnel ↔
          asciiLower (hostOfConnectPath path) ∉
            (["api.openai.com", "api.anthropic.com", "api.codeium.com",
              "copilot-proxy.githubusercontent.com", "api.github.com",
              "generativelanguage.googleapis.com", "api.groq.com",
              "api.mistral.ai", "api.cohere.com", "api.together.xyz",
              "api.windsurf.ai", "server.windsurf.ai"] : List String))
      ∧ ∀ clientBytes originBytes : List Char,
          (tunnel_connect clientBytes originBytes).2.2 = [] := by
  intro path
  have hmem : is_interesting_host (hostOfConnectPath path) = true ↔
      asciiLower (hostOfConnectPath path) ∈ MITM_DOMAINS := by
    unfold is_interesting_host
    exact List.elem_iff
  refine ⟨?_, ?_, fun cb ob => rfl⟩
  · unfold do_connect_mode
    by_cases h : is_interesting_host (hostOfConnectPath path)
    · simp only [h, if_true, true_iff]
      exact (hmem.mp h)
    · simp only [h, Bool.false_eq_true, if_false]
      constructor
      · intro hc; exact absurd hc (by simp)
      · intro hm
        exact absurd (hmem.mpr hm) h
  · unfold do_connect_mode
    by_cases h : is_interesting_host (hostOfConnectPath path)
    · simp only [h, if_true]
      constructor
      · intro hc; exact absurd hc (by simp)
      · intro hnm; exact absurd (hmem.mp h) hnm
    · simp only [h, Bool.false_eq_true, if_false, true_iff]
      intro hm
      exact absurd (hmem.mpr hm) h

/-! ### C9 — source detection -/

/-- The User-Agent-only tag table of the amended source-detection claim. -/
def uaTags : List (String × String) :=
  [("cursor", "cursor"), ("vscode", "vscode"),
   ("copilot", "github-copilot"), ("electron", "electron-app")]

/-- The amended spec description of source detection: the `windsurf` tag is
scanned for in both the lowercased User-Agent and the lowercased URL; the
four remaining tags are scanned for in the lowercased User-Agent only;
default `"unknown"`. -/
def detect_source_spec (user_agent url : String) : String :=
  if strContains (asciiLower user_agent) "windsurf"
      || strContains (asciiLower url) "windsurf" then "windsurf"
  else
    match uaTags.find? (fun t => strContains (asciiLower user_agent) t.1) with
    | some t => t.2
    | none => "unknown"

/-- C9 (amended): `_detect_source` scans the URL only for the `windsurf`
tag; `cursor`, `vscode`, `copilot` and `electron` are matched against the
User-Agent alone, with default `"unknown"`. -/
theorem c9_detect_source_spec :
    ∀ user_agent url : String,
      detect_source user_agent url = detect_source_spec user_agent url := by
  intro ua url
  unfold detect_source detect_source_spec uaTags
  cases h0 : (strContains (asciiLower ua) "windsurf"
      || strContains (asciiLower url) "windsurf") <;>
    simp only [h0, Bool.false_eq_true, if_false, if_true]
  cases h1 : strContains (asciiLower ua) "cursor" <;>
    simp only [h1, List.find?, Bool.false_eq_true, if_false, if_true]
  cases h2 : strContains (asciiLower ua) "vscode" <;>
    simp only [h2, Bool.false_eq_true, if_false, if_true]
  cases h3 : strContains (asciiLower ua) "copilot" <;>
    simp only [h3, Bool.false_eq_true, if_false, if_true]
  cases h4 : strContains (asciiLower ua) "electron" <;>
    simp only [h4, Bool.false_eq_true, if_false, if_true]

/-- C9 (counterexample): a request whose URL contains `cursor` but whose
User-Agent matches no tag is classified `"unknown"`, not `"cursor"` — the
URL is not scanned for the `cursor` tag. -/
theorem c9_url_cursor_unknown :
    strContains (asciiLower "https://cursor.example/api/chat") "cursor" = true
    ∧ detect_source "Mozilla/5.0" "https://cursor.example/api/chat" = "unknown"
    ∧ ("unknown" : String) ≠ "cursor" :=
  ⟨rfl, rfl, by decide⟩

/-! ### C5 — buffer bound -/

/-- Point lookup after a point update, same key. -/
theorem updBuf_same (f : Nat × Nat → Option (List Char)) (k : Nat × Nat)
    (v : Option (List Char)) : updBuf f k v k = v := by
  simp [updBuf]

/-- Point lookup after a point update, different key. -/
theorem updBuf_other (f : Nat × Nat → Option (List Char)) (k : Nat × Nat)
    (v : Option (List Char)) (k' : Nat × Nat) (h : k' ≠ k) :
    updBuf f k v k' = f k' := by
  simp [updBuf, h]

/-- `buffer_step` touches only the flow key of the processed payload. -/
theorem buffer_step_other (st : SnifferState) (payload : List Char)
    (src dst : Nat) (k' : Nat × Nat) (h : k' ≠ (src, dst)) :
    buffer_step st payload src dst k' = st.buffers k' := by
  unfold buffer_step
  split <;> split <;> (cases hsb : st.buffers (src, dst) <;> simp [hsb, updBuf, h])

/-- The 5 MiB bound on every per-flow buffer. -/
def BufInv (st : SnifferState) : Prop :=
  ∀ k b, st.buffers k = some b → b.length ≤ 5 * 1024 * 1024

/-- C5: per-flow buffers never exceed 5 MiB after a processed payload, and
when appending a payload pushes a buffer beyond 5 MiB, only the trailing
256 KiB is retained and no extraction is attempted on that payload. -/
theorem c5_buffer_bound (env : GenEnv) (st : SnifferState) (payload : List Char)
    (src dst : Nat) (hpre : BufInv st) :
    BufInv (process_payload env st payload src dst).state
    ∧ ∀ b, buffer_step st payload src dst (src, dst) = some b →
        5 * 1024 * 1024 < b.length →
          (process_payload env st payload src dst).state.buffers (src, dst)
            = some (takeLast 262144 b)
          ∧ (process_payload env st payload src dst).attempted = false := by
  constructor
  · intro k b hk
    cases hb : buffer_step st payload src dst (src, dst) with
    | none =>
      simp only [process_payload, hb] at hk
      by_cases hkk : k = (src, dst)
      · subst hkk; rw [hb] at hk; exact absurd hk (by simp)
      · rw [buffer_step_other st payload src dst k hkk] at hk
        exact hpre k b hk
    | some buf =>
      by_cases hov : 5 * 1024 * 1024 < buf.length
      · simp only [process_payload, hb, if_pos hov] at hk
        by_cases hkk : k = (src, dst)
        · subst hkk
          rw [updBuf_same] at hk
          injection hk with h'
          subst h'
          have hlen : (takeLast 262144 buf).length ≤ 262144 := by
            unfold takeLast
            rw [List.length_drop]
            omega
          omega
        · rw [updBuf_other _ _ _ _ hkk,
            buffer_step_other st payload src dst k hkk] at hk
          exact hpre k b hk
      · cases hs : (try_extract_request env buf).success with
        | none =>
          simp only [process_payload, hb, if_neg hov, hs] at hk
          by_cases hkk : k = (src, dst)
          · subst hkk; rw [hb] at hk; injection hk with h'; subst h'; omega
          · rw [buffer_step_other st payload src dst k hkk] at hk
            exact hpre k b hk
        | some s =>
          by_cases hc : 0 < (try_extract_request env buf).consumed
          · by_cases hrem : buf.drop (try_extract_request env buf).consumed = []
            · simp only [process_payload, hb, if_neg hov, hs, if_pos hc,
                if_pos hrem] at hk
              by_cases hkk : k = (src, dst)
              · subst hkk; rw [updBuf_same] at hk; exact absurd hk (by simp)
              · rw [updBuf_other _ _ _ _ hkk,
                  buffer_step_other st payload src dst k hkk] at hk
                exact hpre k b hk
            · simp only [process_payload, hb, if_neg hov, hs, if_pos hc,
                if_neg hrem] at hk
              by_cases hkk : k = (src, dst)
              · subst hkk
                rw [updBuf_same] at hk
                injection hk with h'
                subst h'
                rw [List.length_drop]
                omega
              · rw [updBuf_other _ _ _ _ hkk,
                  buffer_step_other st payload src dst k hkk] at hk
                exact hpre k b hk
          · simp only [process_payload, hb, if_neg hov, hs, if_neg hc] at hk
            by_cases hkk : k = (src, dst)
            · subst hkk; rw [hb] at hk; injection hk with h'; subst h'; omega
            · rw [buffer_step_other st payload src dst k hkk] at hk
              exact hpre k b hk
  · intro b hb hov
    refine ⟨?_, ?_⟩
    · show (process_payload env st payload src dst).state.buffers (src, dst)
        = some (takeLast 262144 b)
      simp only [process_payload, hb, if_pos hov]
      exact updBuf_same _ _ _
    · show (process_payload env st payload src dst).attempted = false
      simp only [process_payload, hb, if_pos hov]

/-- The generator state used in the C5 witness scenario. -/
def envC5 : GenEnv := ⟨"0f6d2a30-71c4-4b62-9b5a-0000000000c5", 1700000005⟩

/-- A small marker-bearing payload. -/
def payloadC5 : List Char := "\"cascadeId\" probe".data

/-- C5 (witness): the bound instantiated from the empty sniffer state. -/
theorem c5_buffer_bound_witness :
    BufInv (process_payload envC5 initState payloadC5 40001 40002).state :=
  (c5_buffer_bound envC5 initState payloadC5 40001 40002
    (fun k b hk => by simp [initState] at hk)).1

/-! ### C6 — prefix preservation -/

/-- C6 (amended): when the appended buffer is within the 5 MiB bound and
the single extraction attempt of `_process_payload` succeeds with a
positive consumed count, exactly the prompts of that one attempt are
emitted and only the consumed prefix is dropped from the flow buffer — all
trailing bytes remain (the buffer entry is removed when nothing remains). -/
theorem c6_prefix_preserved (env : GenEnv) (st : SnifferState)
    (payload : List Char) (src dst : Nat) (b : List Char)
    (hb : buffer_step st payload src dst (src, dst) = some b)
    (hlen : b.length ≤ 5 * 1024 * 1024)
    (hsucc : (try_extract_request env b).success = some true)
    (hcons : 0 < (try_extract_request env b).consumed) :
    (process_payload env st payload src dst).emits
      = (try_extract_request env b).emits
    ∧ (process_payload env st payload src dst).state.buffers (src, dst)
        = (if b.drop (try_extract_request env b).consumed = [] then none
           else some (b.drop (try_extract_request env b).consumed))
    ∧ (process_payload env st payload src dst).attempted = true := by
  have hov : ¬ 5 * 1024 * 1024 < b.length := by omega
  refine ⟨?_, ?_, ?_⟩
  · simp only [process_payload, hb, if_neg hov, hsucc, if_pos hcons]
  · by_cases hrem : b.drop (try_extract_request env b).consumed = []
    · simp only [process_payload, hb, if_neg hov, hsucc, if_pos hcons,
        if_pos hrem]
      exact updBuf_same _ _ _
    · simp only [process_payload, hb, if_neg hov, hsucc, if_pos hcons,
        if_neg hrem]
      exact updBuf_same _ _ _
  · simp only [process_payload, hb, if_neg hov, hsucc, if_pos hcons]

/-- The generator state used in concrete C6 scenarios. -/
def envC6 : GenEnv := ⟨"0f6d2a30-71c4-4b62-9b5a-0000000000c6", 1700000006⟩

/-- First complete Cascade body of the pipelined stream. -/
def body_a : String := "\x7b\"cascadeId\":\"a\",\"items\":[\"QQQQQQ\"]\x7d"

/-- Second complete Cascade body of the pipelined stream. -/
def body_b : String := "\x7b\"cascadeId\":\"b\",\"items\":[\"RRRRRR\"]\x7d"

/-- C6 (counterexample): a single-flow stream consisting of one payload
that carries the two complete Cascade bodies `body_a ++ body_b` emits only
the first body's prompt — the second body stays in the buffer because
`_process_payload` makes exactly one extraction attempt per payload — so
the emitted-prompt sequence is not the stream's body sequence. Delivering
the same two bodies as two payloads emits both prompts. -/
theorem c6_single_payload_two_bodies :
    (process_payload envC6 initState (body_a.data ++ body_b.data)
        40001 40002).emits.map (fun p => p.prompt)
      = [Json.str "QQQQQQ"]
    ∧ (process_payload envC6 initState (body_a.data ++ body_b.data)
        40001 40002).state.buffers (40001, 40002) = some body_b.data
    ∧ (let r1 := process_payload envC6 initState body_a.data 40001 40002
       let r2 := process_payload envC6 r1.state body_b.data 40001 40002
       (r1.emits ++ r2.emits).map (fun p => p.prompt)
         = [Json.str "QQQQQQ", Json.str "RRRRRR"]) :=
  ⟨rfl, rfl, rfl⟩

/-- C6 (witness): the amended theorem applied to the concrete two-body
payload: its single extraction emits one prompt and leaves exactly the
trailing body in the buffer. -/
theorem c6_prefix_preserved_witness :
    (process_payload envC6 initState (body_a.data ++ body_b.data)
        40001 40002).emits
      = (try_extract_request envC6 (body_a.data ++ body_b.data)).emits
    ∧ (process_payload envC6 initState (body_a.data ++ body_b.data)
        40001 40002).state.buffers (40001, 40002)
        = (if (body_a.data ++ body_b.data).drop
              (try_extract_request envC6 (body_a.data ++ body_b.data)).consumed = []
           then none
           else some ((body_a.data ++ body_b.data).drop
              (try_extract_request envC6 (body_a.data ++ body_b.data)).consumed))
    ∧ (process_payload envC6 initState (body_a.data ++ body_b.data)
        40001 40002).attempted = true :=
  c6_prefix_preserved envC6 initState (body_a.data ++ body_b.data) 40001 40002
    (body_a.data ++ body_b.data) rfl (by decide) rfl (by decide)

/-! ### C8 — framed extraction -/

/-- Any candidate the balanced-brace scanner returns satisfies the three
validation checks: minimum size 10, the `cascadeId` substring, and a
successful JSON parse. -/
theorem scanJson_accept (text : List Char) (start : Nat) :
    ∀ (rem : List Char) (pos : Nat) (depth : Int) (instr esc : Bool)
      (cand : List Char) (endp : Nat),
      scanJson text start rem pos depth instr esc = (some cand, endp) →
        10 ≤ cand.length
        ∧ containsSubL cand "cascadeId".data = true
        ∧ (parseJsonL cand).isSome = true := by
  intro rem
  induction rem with
  | nil =>
    intro pos depth instr esc cand endp h
    simp [scanJson] at h
  | cons ch rest ih =>
    intro pos depth instr esc cand endp h
    simp only [scanJson] at h
    by_cases h1 : instr = false <;> simp only [h1, if_true, if_false] at h
    · by_cases h2 : ch = dquote <;> simp only [h2, if_true, if_false] at h
      · exact ih _ _ _ _ _ _ h
      · by_cases h3 : ch = lbrace <;> simp only [h3, if_true, if_false] at h
        · exact ih _ _ _ _ _ _ h
        · by_cases h4 : ch = rbrace <;> simp only [h4, if_true, if_false] at h
          · by_cases h5 : depth - 1 = 0 <;> simp only [h5, if_true, if_false] at h
            · by_cases h6 : ((text.drop start).take (pos + 1 - start)).length < 10 <;>
                simp only [h6, if_true, if_false] at h
              · simp at h
              · by_cases h7 : containsSubL ((text.drop start).take (pos + 1 - start))
                    "cascadeId".data = false <;>
                  simp only [h7, if_true, if_false] at h
                · simp at h
                · cases hp : parseJsonL ((text.drop start).take (pos + 1 - start)) with
                  | none => rw [hp] at h; simp at h
                  | some v =>
                    rw [hp] at h
                    have hc : (text.drop start).take (pos + 1 - start) = cand := by
                      have := congrArg Prod.fst h
                      simpa using this
                    subst hc
                    refine ⟨by omega, ?_, ?_⟩
                    · cases hcc : containsSubL ((text.drop start).take (pos + 1 - start))
                        "cascadeId".data
                      · exact absurd hcc h7
                      · rfl
                    · rw [hp]; rfl
            · exact ih _ _ _ _ _ _ h
          · exact ih _ _ _ _ _ _ h
    · by_cases h2 : esc = true <;> simp only [h2, if_true, if_false] at h
      · exact ih _ _ _ _ _ _ h
      · by_cases h3 : ch = bslash <;> simp only [h3, if_true, if_false] at h
        · exact ih _ _ _ _ _ _ h
        · by_cases h4 : ch = dquote <;> simp only [h4, if_true, if_false] at h
          · exact ih _ _ _ _ _ _ h
          · exact ih _ _ _ _ _ _ h

/-- The generator state used in the concrete C8 scenario. -/
def envC8 : GenEnv := ⟨"0f6d2a30-71c4-4b62-9b5a-0000000000c8", 1700000008⟩

/-- The JSON body of the framed packet. -/
def json8 : String := "\x7b\"cascadeId\":\"z\",\"items\":[\x7b\"text\":\"hi there\"\x7d]\x7d"

/-- The framed packet `\x00\x00\x00\x00\x4c` ++ JSON body. -/
def packet8 : List Char :=
  [Char.ofNat 0, Char.ofNat 0, Char.ofNat 0, Char.ofNat 0, Char.ofNat 76]
  ++ json8.data

/-- C8: in the framed extraction path a candidate is accepted only if it
parses as JSON, contains `cascadeId`, and is at least 10 bytes long; and
the concrete framed packet produces exactly one emission with prompt
`"hi there"` and source `"windsurf"`. -/
theorem c8_framed_extraction :
    (∀ (text : List Char) (start : Nat) (cand : List Char) (endp : Nat),
      extract_json_from_position text start = (some cand, endp) →
        10 ≤ cand.length
        ∧ containsSubL cand "cascadeId".data = true
        ∧ (parseJsonL cand).isSome = true)
    ∧ (process_payload envC8 initState packet8 40001 40002).emits.map
        (fun p => (p.prompt, p.source))
      = [(Json.str "hi there", "windsurf")] := by
  constructor
  · intro text start cand endp h
    unfold extract_json_from_position at h
    exact scanJson_accept text start _ _ _ _ _ _ _ h
  · rfl

set_option maxRecDepth 4000 in
/-- C8 (witness): the acceptance conditions instantiated at the concrete
candidate the scanner extracts from the framed packet. -/
theorem c8_framed_extraction_witness :
    10 ≤ json8.data.length
    ∧ containsSubL json8.data "cascadeId".data = true
    ∧ (parseJsonL json8.data).isSome = true :=
  c8_framed_extraction.1 packet8 5 json8.data 52 rfl

/-! ### C3 — chat schema, last user message -/

/-- An entry the reversed-message loop skips without raising: a JSON object
whose `role` is not the string `"user"`. -/
def SkipObj (x : Json) : Prop :=
  ∃ m, x = Json.obj m
    ∧ (match jlookup m "role" with
       | some (Json.str r) => r == "user"
       | _ => false) = false

/-- The reversed-message loop passes over skippable entries. -/
theorem find_user_skip (l rest : List Json) (hl : ∀ x ∈ l, SkipObj x) :
    find_user_prompt (l ++ rest) = find_user_prompt rest := by
  induction l with
  | nil => rfl
  | cons x t ih =>
    obtain ⟨m, rfl, hm⟩ := hl x (List.mem_cons_self x t)
    simp only [List.cons_append, find_user_prompt, hm, Bool.false_eq_true,
      if_false]
    exact ih (fun y hy => hl y (List.mem_cons_of_mem _ hy))

/-- A body that dispatches past the Cascade branch runs the non-Cascade
chain. -/
theorem extract_body_noncascade (fields : List (String × Json))
    (url method body : String) (headers : Headers)
    (h3 : (hasKey fields "cascadeId" && hasKey fields "items") = false) :
    extract_body (Json.obj fields) url method body headers
      = extract_rest (Json.obj fields) url method body headers := by
  unfold extract_body
  simp only [pyContains_obj, exbind_ok]
  cases hck : hasKey fields "cascadeId" with
  | false => simp [hck]
  | true =>
    rw [hck] at h3
    simp only [Bool.true_and] at h3
    simp [hck, h3, pyContains_obj]

/-- The non-Cascade chain on a body holding a `messages` array returns the
record whose `prompt` is the loop's result and whose `messages` is the
array verbatim. -/
theorem extract_rest_messages (fields : List (String × Json))
    (url method body : String) (headers : Headers) (ms : List Json) (pt : Json)
    (h4 : jlookup fields "messages" = some (Json.arr ms))
    (hfind : find_user_prompt ms.reverse = Except.ok pt) :
    extract_rest (Json.obj fields) url method body headers
      = Except.ok
          { source := detect_source (hget headers "user-agent" "") url,
            user_agent := hget headers "user-agent" "",
            url := url, method := method,
            prompt := pt, messages := Json.arr ms, response := none,
            metadata := [("model", jlookupD fields "model" (Json.str "")),
              ("temperature", jlookupD fields "temperature" Json.null),
              ("max_tokens", jlookupD fields "max_tokens" Json.null),
              ("stream", jlookupD fields "stream" (Json.bool false)),
              ("content_type", Json.str (hget headers "content-type" "")),
              ("authorization_present",
                Json.bool (hcontains headers "authorization")),
              ("request_size", Json.num (toString body.length))] } := by
  unfold extract_rest
  have hkm : hasKey fields "messages" = true := by
    unfold hasKey
    rw [h4]
    rfl
  have hsub : pySubscript (Json.obj fields) "messages" = Except.ok (Json.arr ms) := by
    simp [pySubscript, h4]
  have hrev : pyReversed (Json.arr ms) = Except.ok ms.reverse := rfl
  simp only [pyContains_obj, exbind_ok, hkm, if_true, hsub, hrev, hfind,
    expure, pyGetD_obj]

/-- C3 (amended): for a chat-schema body (no Cascade keys, a `messages`
array) whose last `role == "user"` entry is an object followed only by
objects that are not user entries, the returned record's `prompt` is that
entry's `content` (default `""` when absent) and its `messages` is the
body's array verbatim. A non-object entry after the last user entry makes
the source raise and return `None` instead. -/
theorem c3_chat_last_user (env : GenEnv) (url method body : String)
    (headers : Headers) (fields : List (String × Json)) (pre post : List Json)
    (m : List (String × Json)) (ms : List Json)
    (h1 : is_ai_request url body headers = true)
    (h2 : py_loads_body body = some (Json.obj fields))
    (h3 : (hasKey fields "cascadeId" && hasKey fields "items") = false)
    (h4 : jlookup fields "messages" = some (Json.arr ms))
    (h5 : ms = pre ++ Json.obj m :: post)
    (h6 : jlookup m "role" = some (Json.str "user"))
    (h7 : ∀ x ∈ post, SkipObj x) :
    (extract_prompt_from_request env url method body headers).map
      (fun p => (p.prompt, p.messages))
    = some (jlookupD m "content" (Json.str ""), Json.arr ms) := by
  have hfind : find_user_prompt ms.reverse
      = Except.ok (jlookupD m "content" (Json.str "")) := by
    subst h5
    rw [List.reverse_append, List.reverse_cons, List.append_assoc,
      find_user_skip post.reverse _ (fun x hx => h7 x (List.mem_reverse.mp hx)),
      List.singleton_append]
    simp [find_user_prompt, h6]
  unfold extract_prompt_from_request extract_core
  rw [h1]
  simp only [Bool.true_eq_false, if_false, h2]
  rw [extract_body_noncascade fields url method body headers h3,
    extract_rest_messages fields url method body headers ms _ h4 hfind]
  rfl

/-- The generator state used in concrete C3 scenarios. -/
def envC3 : GenEnv := ⟨"0f6d2a30-71c4-4b62-9b5a-0000000000c3", 1700000009⟩

/-- A chat body whose last user entry is followed by a bare number. -/
def bodyC3bad : String :=
  "\x7b\"messages\":[\x7b\"role\":\"user\",\"content\":\"hi\"\x7d,5]\x7d"

/-- C3 (counterexample): a chat-schema body that contains a user entry but
whose `messages` array ends with a non-object. The reversed-message loop
calls `.get` on the number `5`, the `AttributeError` is caught, and the
parser returns `None` — not a record with prompt `"hi"` as the claim
requires. -/
theorem c3_trailing_nondict :
    is_ai_request "" bodyC3bad [] = true
    ∧ extract_prompt_from_request envC3 "" "POST" bodyC3bad [] = none :=
  ⟨rfl, rfl⟩

/-- A well-formed chat body: system turn then user turn. -/
def bodyC3good : String :=
  "\x7b\"messages\":[\x7b\"role\":\"system\",\"content\":\"S\"\x7d,\x7b\"role\":\"user\",\"content\":\"Hello\"\x7d]\x7d"

/-- The parsed `messages` array of `bodyC3good`. -/
def msC3 : List Json :=
  [Json.obj [("role", Json.str "system"), ("content", Json.str "S")],
   Json.obj [("role", Json.str "user"), ("content", Json.str "Hello")]]

/-- C3 (witness): the amended theorem applied to the concrete chat body. -/
theorem c3_chat_last_user_witness :
    (extract_prompt_from_request envC3 "" "POST" bodyC3good []).map
      (fun p => (p.prompt, p.messages))
    = some (Json.str "Hello", Json.arr msC3) :=
  c3_chat_last_user envC3 "" "POST" bodyC3good [] [("messages", Json.arr msC3)]
    [Json.obj [("role", Json.str "system"), ("content", Json.str "S")]] []
    [("role", Json.str "user"), ("content", Json.str "Hello")] msC3
    rfl rfl rfl rfl rfl rfl (fun x hx => absurd hx (List.not_mem_nil x))

/-! ### C10 — unrecognised body shapes -/

/-- C10 (amended): when `is_ai_request` holds and the body is empty or
parses to a JSON *object* matching none of the four recognised shapes, the
parser still returns a record with empty `prompt` and empty `messages`.
(A valid non-object JSON body instead raises inside the dispatch and
returns `None`.) -/
theorem c10_no_shape_empty_record (env : GenEnv) (url method body : String)
    (headers : Headers) (fields : List (String × Json))
    (h1 : is_ai_request url body headers = true)
    (h2 : py_loads_body body = some (Json.obj fields))
    (h3 : (hasKey fields "cascadeId" && hasKey fields "items") = false)
    (h4 : hasKey fields "messages" = false)
    (h5 : hasKey fields "prompt" = false)
    (h6 : hasKey fields "query" = false)
    (h7 : hasKey fields "text" = false) :
    (extract_prompt_from_request env url method body headers).map
      (fun p => (p.prompt, p.messages))
    = some (Json.str "", Json.arr []) := by
  unfold extract_prompt_from_request extract_core
  rw [h1]
  simp only [Bool.true_eq_false, if_false, h2]
  rw [extract_body_noncascade fields url method body headers h3]
  unfold extract_rest
  simp only [pyContains_obj, exbind_ok, h4, h5, h6, h7, Bool.false_eq_true,
    if_false, expure, Bool.or_self, pyGetD_obj]
  rfl

/-- The generator state used in concrete C10 scenarios. -/
def envC10 : GenEnv := ⟨"0f6d2a30-71c4-4b62-9b5a-0000000000d0", 1700000010⟩

/-- C10 (counterexample): `"5"` is valid JSON accepted by `is_ai_request`
(via the Windsurf URL) and matches none of the four shapes, yet
`extract_prompt_from_request` returns `None`: `'cascadeId' in 5` raises
`TypeError`, which the `except Exception` handler turns into `None`. -/
theorem c10_nonobject_body_none :
    is_ai_request urlWS "5" [] = true
    ∧ parseJson "5" = some (Json.num "5")
    ∧ extract_prompt_from_request envC10 urlWS "POST" "5" [] = none :=
  ⟨rfl, rfl, rfl⟩

/-- C10 (witness): the amended theorem applied to the empty-object body. -/
theorem c10_no_shape_witness :
    (extract_prompt_from_request envC10 urlWS "POST" "\x7b\x7d" []).map
      (fun p => (p.prompt, p.messages))
    = some (Json.str "", Json.arr []) :=
  c10_no_shape_empty_record envC10 urlWS "POST" "\x7b\x7d" [] []
    rfl rfl rfl rfl rfl rfl rfl

/-! ### C4 — emission guard -/

/-- Everything the shared emission guard lets through has a truthy prompt. -/
theorem emits_of_truthy (pr : Option InterceptedPrompt) :
    (emits_of pr).all (fun p => pyTruthy p.prompt) = true := by
  cases pr with
  | none => rfl
  | some p =>
    unfold emits_of
    by_cases h : pyTruthy p.prompt <;> simp [h]

/-- Every prompt emitted by strategy 1 has a truthy prompt. -/
theorem strat1_emits_truthy (env : GenEnv) (text : List Char) (r : TryResult)
    (h : try_extract_strategy1 env text = some r) :
    r.emits.all (fun p => pyTruthy p.prompt) = true := by
  unfold try_extract_strategy1 at h
  dsimp only at h
  repeat' split at h
  all_goals first
    | exact Option.noConfusion h
    | (injection h with h'; subst h'; first | rfl | exact emits_of_truthy _)

/-- The strategy 2 tail only emits truthy prompts. -/
theorem strategy2_finish_truthy (pr : Option InterceptedPrompt) (e : Nat) :
    (strategy2_finish pr e).emits.all (fun p => pyTruthy p.prompt) = true := by
  cases pr with
  | none => rfl
  | some p =>
    unfold strategy2_finish
    by_cases h : pyTruthy p.prompt <;> simp [h]

/-- Every prompt emitted by strategy 2 has a truthy prompt. -/
theorem strat2_emits_truthy (env : GenEnv) (text : List Char) :
    (try_extract_strategy2 env text).emits.all (fun p => pyTruthy p.prompt)
      = true := by
  unfold try_extract_strategy2
  repeat' split
  all_goals first | rfl | exact strategy2_finish_truthy _ _

/-- C4: a record is emitted exactly when it exists and its prompt is
non-empty (truthy). On the sniffer path every prompt emitted by
`_try_extract_request` has a truthy prompt, and both emission sites
(strategy 1's `emits_of`, strategy 2's `strategy2_finish`) emit exactly
when the extracted record exists with a truthy prompt; on the proxy path
`_log_request` emits, once its own AI-traffic gate passes on a non-empty
body, exactly when the extracted record exists with a truthy prompt — and
what it emits is the extracted record itself. -/
theorem c4_emission_guard :
    (∀ (env : GenEnv) (buf : List Char),
      (try_extract_request env buf).emits.all (fun p => pyTruthy p.prompt)
        = true)
    ∧ (∀ (pr : Option InterceptedPrompt),
        (!(emits_of pr).isEmpty)
          = pr.elim false (fun p => pyTruthy p.prompt))
    ∧ (∀ (pr : Option InterceptedPrompt) (e : Nat),
        (!(strategy2_finish pr e).emits.isEmpty)
          = pr.elim false (fun p => pyTruthy p.prompt))
    ∧ (∀ (env : GenEnv) (url method body : String) (headers : Headers),
        (log_request env url method body headers).elim true
          (fun p => pyTruthy p.prompt) = true)
    ∧ (∀ (env : GenEnv) (url method body : String) (headers : Headers),
        is_ai_traffic url headers = true → body ≠ "" →
        (log_request env url method body headers).isSome
          = (extract_prompt_from_request env url method body headers).elim
              false (fun p => pyTruthy p.prompt))
    ∧ (∀ (env : GenEnv) (url method body : String) (headers : Headers),
        log_request env url method body headers = none
        ∨ log_request env url method body headers
            = extract_prompt_from_request env url method body headers) := by
  refine ⟨?_, ?_, ?_, ?_, ?_, ?_⟩
  · intro env buf
    unfold try_extract_request
    cases h : try_extract_strategy1 env buf with
    | none => exact strat2_emits_truthy env buf
    | some r => exact strat1_emits_truthy env buf r h
  · intro pr
    cases pr with
    | none => rfl
    | some p =>
      unfold emits_of
      by_cases h : pyTruthy p.prompt <;> simp [h]
  · intro pr e
    cases pr with
    | none => rfl
    | some p =>
      unfold strategy2_finish
      by_cases h : pyTruthy p.prompt <;> simp [h]
  · intro env url method body headers
    unfold log_request
    repeat' split
    all_goals simp_all
  · intro env url method body headers h1 h2
    unfold log_request
    rw [if_neg (by simp [h1]), if_neg h2]
    cases hx : extract_prompt_from_request env url method body headers with
    | none => rfl
    | some p =>
      by_cases ht : pyTruthy p.prompt <;> simp [ht]
  · intro env url method body headers
    unfold log_request
    by_cases hg : is_ai_traffic url headers = false
    · left; simp [hg]
    · by_cases hb : body = ""
      · left; simp [hg, hb]
      · cases hx : extract_prompt_from_request env url method body headers with
        | none => left; simp [hg, hb, hx]
        | some p =>
          by_cases ht : pyTruthy p.prompt
          · right; simp [hg, hb, hx, ht]
          · left; simp [hg, hb, hx, ht]

/-- The generator state used in the C4 witness scenario. -/
def envC4 : GenEnv := ⟨"0f6d2a30-71c4-4b62-9b5a-0000000000c4", 1700000004⟩

/-- An OpenAI chat-completions URL (passes the proxy AI-traffic gate). -/
def urlC4 : String := "https://api.openai.com/v1/chat/completions"

/-- A chat body with one user turn. -/
def bodyC4 : String :=
  "\x7b\"model\":\"gpt-4\",\"messages\":[\x7b\"role\":\"user\",\"content\":\"Hello\"\x7d]\x7d"

/-- C4 (witness): the proxy-site characterisation instantiated at a
concrete intercepted request. -/
theorem c4_emission_guard_witness :
    (log_request envC4 urlC4 "POST" bodyC4 []).isSome
      = (extract_prompt_from_request envC4 urlC4 "POST" bodyC4 []).elim
          false (fun p => pyTruthy p.prompt) :=
  c4_emission_guard.2.2.2.2.1 envC4 urlC4 "POST" bodyC4 [] rfl (by decide)
